import Mathlib

/-!
Shallow embedding of the Chirpy server's authentication and authorization
core (TypeScript sources: `src/auth.ts`, `src/index.ts`,
`src/db/queries/users.ts` (users and refreshTokens query modules),
`src/db/queries/chirps.ts`, and the lifetime-negotiating variant of the
login handler).  Machine integers are modelled as `Int`; JSON values that
may be absent or of the wrong runtime type are modelled by `Option JVal`;
fallible handlers return `Except ApiError` paired with the (explicitly
threaded) database state.
-/

namespace Chirpy

/-- A primitive JSON runtime value, as far as the handlers inspect one:
a string, a number, a boolean, or `null`. -/
inductive JVal where
  | jstr (s : String)
  | jnum (n : Int)
  | jbool (b : Bool)
  | jnull
deriving DecidableEq, Repr

/-- JavaScript truthiness of a possibly-absent JSON value: `undefined`,
`null`, the empty string, `0` and `false` are falsy, everything else is
truthy.  This is the semantics of the `!x` guards in the handlers. -/
def truthy : Option JVal → Bool
  | none => false
  | some .jnull => false
  | some (.jstr s) => !(s == "")
  | some (.jnum n) => !(n == 0)
  | some (.jbool b) => b

/-- Whether a possibly-absent JSON value is a string
(`typeof x === "string"`). -/
def isStringVal : Option JVal → Bool
  | some (.jstr _) => true
  | _ => false

/-- The claims-relevant fields of a JWT payload, mirroring
`Pick<JwtPayload, "iss" | "sub" | "iat" | "exp">` in `src/auth.ts`.
`iss` and `sub` are arbitrary JSON values (a tampered token may carry a
non-string subject); `iat` and `exp` are epoch seconds. -/
structure JwtPayload where
  iss : Option JVal
  sub : Option JVal
  iat : Option Int
  exp : Option Int
deriving DecidableEq, Repr

/-- A signed token.  The symmetric MAC of the `jsonwebtoken` library is
modelled abstractly: `sigKey` records the secret the signature was made
with and `sigPayload` the payload it covers, so verification under
`secret` succeeds exactly when `sigKey = secret` and the payload was not
altered after signing (`sigPayload = payload`).  A structurally tampered
token is one whose `payload` differs from its `sigPayload`. -/
structure Token where
  payload : JwtPayload
  sigKey : String
  sigPayload : JwtPayload
deriving DecidableEq, Repr

/-- Models `jwt.verify(token, secret)` of the external `jsonwebtoken`
library at current time `nowSec` (epoch seconds): it rejects a token whose
signature does not verify under `secret`, then rejects an expired token
(`exp` present and `nowSec ≥ exp`), and otherwise returns the decoded
payload.  The error strings are the library's. -/
def jwtVerify (tok : Token) (secret : String) (nowSec : Int) :
    Except String JwtPayload :=
  if ¬ (tok.sigKey = secret ∧ tok.sigPayload = tok.payload) then
    .error "invalid signature"
  else
    match tok.payload.exp with
    | some e => if nowSec ≥ e then .error "jwt expired" else .ok tok.payload
    | none => .ok tok.payload

/-- Embeds `makeJWT` (`src/auth.ts`): builds the payload
`{iss: "chirpy", sub: userID, iat, exp: iat + expiresIn}` at current time
`nowSec` (the source's `Math.floor(Date.now() / 1000)`) and signs it with
`secret`. -/
def makeJWT (userID : String) (expiresIn : Int) (secret : String)
    (nowSec : Int) : Token :=
  let payload : JwtPayload :=
    { iss := some (.jstr "chirpy")
      sub := some (.jstr userID)
      iat := some nowSec
      exp := some (nowSec + expiresIn) }
  { payload := payload, sigKey := secret, sigPayload := payload }

/-- The categorized error taxonomy thrown by handlers (`src/errors.ts`
classes), plus `internal` for a plain uncategorized `Error`. -/
inductive ApiError where
  | badRequest (msg : String)
  | unauthorized (msg : String)
  | forbidden (msg : String)
  | notFound (msg : String)
  | internal (msg : String)
deriving DecidableEq, Repr

/-- The status code the `errorHandler` middleware (`src/index.ts`) assigns
to each error category; anything uncategorized becomes 500. -/
def errStatus : ApiError → Nat
  | .badRequest _ => 400
  | .unauthorized _ => 401
  | .forbidden _ => 403
  | .notFound _ => 404
  | .internal _ => 500

/-- Embeds `validateJWT` (`src/auth.ts`, first variant): verifies the
token, rejects a subject that is falsy or not a string, and returns the
subject string.  Every failure — including the inner subject check, whose
throw lands in the same `catch` — surfaces as
`UnauthorizedError("Invalid or expired token")`. -/
def validateJWT (tok : Token) (secret : String) (nowSec : Int) :
    Except ApiError String :=
  match jwtVerify tok secret nowSec with
  | .error _ => .error (.unauthorized "Invalid or expired token")
  | .ok decoded =>
    if ¬ truthy decoded.sub ∨ ¬ isStringVal decoded.sub then
      .error (.unauthorized "Invalid or expired token")
    else
      match decoded.sub with
      | some (.jstr s) => .ok s
      | _ => .error (.unauthorized "Invalid or expired token")

/-- Embeds the second `validateJWT` variant (`src/auth.ts`, lines
174-182): identical checks but no `try`/`catch`, so the library errors and
the plain `Error("Invalid token: missing or invalid subject")` propagate
uncategorized (the boundary `errorHandler` maps them to 500). -/
def validateJWT2 (tok : Token) (secret : String) (nowSec : Int) :
    Except ApiError String :=
  match jwtVerify tok secret nowSec with
  | .error e => .error (.internal e)
  | .ok decoded =>
    if ¬ truthy decoded.sub ∨ ¬ isStringVal decoded.sub then
      .error (.internal "Invalid token: missing or invalid subject")
    else
      match decoded.sub with
      | some (.jstr s) => .ok s
      | _ => .error (.internal "Invalid token: missing or invalid subject")

/-- A user row (`users` table): unique id, email, Argon2 password hash,
Chirpy-Red tier flag, timestamps (milliseconds). -/
structure User where
  id : String
  email : String
  hashedPassword : String
  isChirpyRed : Bool
  createdAt : Int
  updatedAt : Int
deriving DecidableEq, Repr

/-- A refresh-token row (`refresh_tokens` table): the opaque token value,
the owning user's id, expiry and optional revocation timestamps
(milliseconds, compared against `Date.now()`), and row timestamps. -/
structure RefreshTokenRow where
  token : String
  userId : String
  expiresAt : Int
  revokedAt : Option Int
  createdAt : Int
  updatedAt : Int
deriving DecidableEq, Repr

/-- A chirp row (`chirps` table). -/
structure Chirp where
  id : String
  body : String
  userId : String
  createdAt : Int
  updatedAt : Int
deriving DecidableEq, Repr

/-- The persistent store the handlers thread explicitly. -/
structure DB where
  users : List User
  refreshTokens : List RefreshTokenRow
  chirps : List Chirp
deriving DecidableEq, Repr

/-- Embeds `getUserByEmail` (`src/db/queries/users.ts`): the first user
row whose email matches. -/
def getUserByEmail (db : DB) (email : String) : Option User :=
  db.users.find? (fun u => u.email == email)

/-- Embeds `createRefreshToken` (`src/db/queries/refreshTokens.ts`):
inserts the new row. -/
def createRefreshToken (db : DB) (row : RefreshTokenRow) : DB :=
  { db with refreshTokens := db.refreshTokens ++ [row] }

/-- Embeds `getUserFromRefreshToken` (`src/db/queries/refreshTokens.ts`):
selects the refresh-token row with this token value, `revoked_at` null
and `expires_at` strictly greater than the current time (`nowMs`,
milliseconds), inner-joined with its owning user row. -/
def getUserFromRefreshToken (db : DB) (token : String) (nowMs : Int) :
    Option User :=
  match db.refreshTokens.find?
      (fun r => r.token == token && r.revokedAt == none
        && decide (nowMs < r.expiresAt)) with
  | some r => db.users.find? (fun u => u.id == r.userId)
  | none => none

/-- Embeds `revokeRefreshToken` (`src/db/queries/refreshTokens.ts`):
`UPDATE refresh_tokens SET revoked_at = now, updated_at = now WHERE
token = token` — every row matching the token value is stamped,
unconditionally, whether or not it was already revoked. -/
def revokeRefreshToken (db : DB) (token : String) (nowMs : Int) : DB :=
  { db with refreshTokens := db.refreshTokens.map (fun r =>
      if r.token == token then
        { r with revokedAt := some nowMs, updatedAt := nowMs }
      else r) }

/-- Embeds `getChirpById` (`src/db/queries/chirps.ts`). -/
def getChirpById (db : DB) (chirpId : String) : Option Chirp :=
  db.chirps.find? (fun c => c.id == chirpId)

/-- Embeds `deleteChirp` (`src/db/queries/chirps.ts`): deletes every
chirp row whose id matches. -/
def deleteChirp (db : DB) (chirpId : String) : DB :=
  { db with chirps := db.chirps.filter (fun c => !(c.id == chirpId)) }

/-- Modelled from the spec: `upgradeUserToChirpyRed`
(`src/db/queries/users.ts`) is imported by `src/index.ts` but its body is
not among the provided sources; per §3 the tier-upgrade operation updates
the user's role/tier flag. It sets `is_chirpy_red = true` (and bumps
`updated_at`) on the rows matching the user id and returns the updated
row, or `none` when no user matched. -/
def upgradeUserToChirpyRed (db : DB) (userId : String) (nowMs : Int) :
    Option User × DB :=
  match db.users.find? (fun u => u.id == userId) with
  | none => (none, db)
  | some u =>
    (some { u with isChirpyRed := true, updatedAt := nowMs },
     { db with users := db.users.map (fun v =>
        if v.id == userId then
          { v with isChirpyRed := true, updatedAt := nowMs }
        else v) })

/-- Sixty days in milliseconds (`SIXTY_DAYS_IN_MS` in `handlerLogin`). -/
def SIXTY_DAYS_IN_MS : Int := 60 * 24 * 60 * 60 * 1000

/-- What a successful login responds with: the user, the signed access
token, and the opaque refresh-token string. -/
structure LoginResult where
  user : User
  token : Token
  refreshToken : String
deriving DecidableEq, Repr

/-- Embeds `handlerLogin` (`src/index.ts`): falsy/non-string email or
password, unknown email, and failed password check all throw the same
generic `UnauthorizedError("Incorrect email or password")`; on success it
issues a one-hour JWT and a fresh 60-day refresh token, persists the
refresh token, and returns both.  The Argon2 check
(`checkPasswordHash`, an external library call) is the oracle `pwOk`;
the random token from `makeRefreshToken` is the parameter `freshTok`;
`nowMs` is `Date.now()`. -/
def handlerLogin (db : DB) (email password : Option JVal)
    (pwOk : String → String → Bool) (freshTok : String) (nowMs : Int)
    (secret : String) : Except ApiError LoginResult × DB :=
  if ¬ truthy email ∨ ¬ isStringVal email then
    (.error (.unauthorized "Incorrect email or password"), db)
  else if ¬ truthy password ∨ ¬ isStringVal password then
    (.error (.unauthorized "Incorrect email or password"), db)
  else
    match email, password with
    | some (.jstr e), some (.jstr p) =>
      (match getUserByEmail db e with
       | none => (.error (.unauthorized "Incorrect email or password"), db)
       | some user =>
         if pwOk p user.hashedPassword = false then
           (.error (.unauthorized "Incorrect email or password"), db)
         else
           let accessToken := makeJWT user.id 3600 secret (Int.fdiv nowMs 1000)
           let row : RefreshTokenRow :=
             { token := freshTok, userId := user.id
               expiresAt := nowMs + SIXTY_DAYS_IN_MS, revokedAt := none
               createdAt := nowMs, updatedAt := nowMs }
           (.ok { user := user, token := accessToken, refreshToken := freshTok },
            createRefreshToken db row))
    | _, _ => (.error (.unauthorized "Incorrect email or password"), db)

/-- Embeds `handlerRefresh` (`src/index.ts`): resolves the user through
`getUserFromRefreshToken`; absent → `UnauthorizedError("Invalid or
expired refresh token")`; otherwise issues a fresh one-hour JWT.  No
database write happens on this path. -/
def handlerRefresh (db : DB) (refreshToken : String) (nowMs : Int)
    (secret : String) : Except ApiError Token × DB :=
  match getUserFromRefreshToken db refreshToken nowMs with
  | none => (.error (.unauthorized "Invalid or expired refresh token"), db)
  | some user => (.ok (makeJWT user.id 3600 secret (Int.fdiv nowMs 1000)), db)

/-- Embeds `handlerRevoke` (`src/index.ts`): stamps the token via
`revokeRefreshToken` and always responds 204. -/
def handlerRevoke (db : DB) (refreshToken : String) (nowMs : Int) :
    Except ApiError Nat × DB :=
  (.ok 204, revokeRefreshToken db refreshToken nowMs)

/-- Embeds `handlerDeleteChirp` (`src/index.ts`): validates the bearer
JWT, 404 on an unknown chirp id, 403 when the requester is not the
author, otherwise deletes the chirp and responds 204. -/
def handlerDeleteChirp (db : DB) (tok : Token) (secret : String)
    (nowSec : Int) (chirpId : String) : Except ApiError Nat × DB :=
  match validateJWT tok secret nowSec with
  | .error e => (.error e, db)
  | .ok userId =>
    match getChirpById db chirpId with
    | none => (.error (.notFound "Chirp not found"), db)
    | some chirp =>
      if ¬ (chirp.userId = userId) then
        (.error (.forbidden "You are not authorized to delete this chirp"), db)
      else
        (.ok 204, deleteChirp db chirpId)

/-- The parsed webhook body: `event` and `data?.userId` as the handler
reads them (`parsedBody.event`, `parsedBody.data?.userId`). -/
structure WebhookBody where
  event : Option JVal
  dataUserId : Option JVal
deriving DecidableEq, Repr

/-- Embeds `handlerPolkaWebhook` (`src/index.ts`): 401 when the presented
ApiKey differs from the configured key (before the body is even read);
204 no-op for any event other than `"user.upgraded"`; 400 for a
falsy/non-string userId; 404 when no user matches; otherwise flips the
tier flag and responds 204. -/
def handlerPolkaWebhook (db : DB) (apiKey polkaKey : String)
    (body : WebhookBody) (nowMs : Int) : Except ApiError Nat × DB :=
  if ¬ (apiKey = polkaKey) then
    (.error (.unauthorized "Invalid API key"), db)
  else if ¬ (body.event = some (.jstr "user.upgraded")) then
    (.ok 204, db)
  else if ¬ truthy body.dataUserId ∨ ¬ isStringVal body.dataUserId then
    (.error (.badRequest "Invalid user ID"), db)
  else
    match body.dataUserId with
    | some (.jstr uid) =>
      (match upgradeUserToChirpyRed db uid nowMs with
       | (none, _) => (.error (.notFound "User not found"), db)
       | (some _, db') => (.ok 204, db'))
    | _ => (.error (.badRequest "Invalid user ID"), db)

/-- Embeds `handlerLogin` of the lifetime-negotiating variant
(`src/unnamed/part_001`): same credential checks and generic failures; a
present non-number `expiresInSeconds` is a 400; a present number clamps
the lifetime to `Math.min(expiresInSeconds, 3600)`; absent means exactly
3600.  This variant issues only the access token (no refresh token) and
writes nothing. -/
def handlerLoginNegotiated (db : DB) (email password : Option JVal)
    (pwOk : String → String → Bool) (expiresInSeconds : Option JVal)
    (nowMs : Int) (secret : String) :
    Except ApiError (User × Token) × DB :=
  if ¬ truthy email ∨ ¬ isStringVal email then
    (.error (.unauthorized "Incorrect email or password"), db)
  else if ¬ truthy password ∨ ¬ isStringVal password then
    (.error (.unauthorized "Incorrect email or password"), db)
  else
    match email, password with
    | some (.jstr e), some (.jstr p) =>
      (match getUserByEmail db e with
       | none => (.error (.unauthorized "Incorrect email or password"), db)
       | some user =>
         if pwOk p user.hashedPassword = false then
           (.error (.unauthorized "Incorrect email or password"), db)
         else
           match expiresInSeconds with
           | none =>
             (.ok (user, makeJWT user.id 3600 secret (Int.fdiv nowMs 1000)), db)
           | some (.jnum reqSec) =>
             (.ok (user,
               makeJWT user.id (min reqSec 3600) secret (Int.fdiv nowMs 1000)),
              db)
           | some _ => (.error (.badRequest "Invalid expiresInSeconds"), db))
    | _, _ => (.error (.unauthorized "Incorrect email or password"), db)

/-- A test-fixture user row used by the concrete witness instantiations. -/
def userW : User :=
  { id := "u1", email := "a@x.com", hashedPassword := "pw1",
    isChirpyRed := false, createdAt := 0, updatedAt := 0 }

/-- A test-fixture refresh-token row owned by `userW`, unrevoked and not
yet expired at time 50. -/
def rowW : RefreshTokenRow :=
  { token := "rt", userId := "u1", expiresAt := 100, revokedAt := none,
    createdAt := 0, updatedAt := 0 }

/-- A test-fixture chirp authored by `userW`. -/
def chirpW : Chirp :=
  { id := "c1", body := "hello", userId := "u1", createdAt := 0,
    updatedAt := 0 }

/-- An empty store. -/
def dbEmpty : DB := { users := [], refreshTokens := [], chirps := [] }

/-- A store holding just `userW`. -/
def dbUser : DB := { users := [userW], refreshTokens := [], chirps := [] }

/-- A store holding `userW` and the refresh token `rowW`. -/
def dbRefresh : DB :=
  { users := [userW], refreshTokens := [rowW], chirps := [] }

/-- A store holding just `chirpW`. -/
def dbChirp : DB := { users := [], refreshTokens := [], chirps := [chirpW] }

/-- Plaintext-equality password oracle used to instantiate the `pwOk`
parameter in witnesses. -/
def pwEq : String → String → Bool := fun p h => p == h

end Chirpy

namespace Chirpy

/-- Characterization of the modelled `jwt.verify`: it returns a payload
exactly when the signature was made with the given secret over the very
payload carried, and the expiry claim (when present) is strictly in the
future. -/
theorem jwtVerify_ok_iff (tok : Token) (secret : String) (nowSec : Int)
    (p : JwtPayload) :
    jwtVerify tok secret nowSec = .ok p ↔
      tok.sigKey = secret ∧ tok.sigPayload = tok.payload ∧ p = tok.payload
        ∧ ∀ e, tok.payload.exp = some e → nowSec < e := by
  unfold jwtVerify
  split
  · rename_i hsig
    constructor
    · intro h; simp at h
    · rintro ⟨hk, hp, _, _⟩; exact absurd ⟨hk, hp⟩ hsig
  · rename_i hsig
    push_neg at hsig
    rcases hsig with ⟨hk, hp⟩
    split
    · rename_i e he
      split
      · rename_i hexp
        constructor
        · intro h; simp at h
        · rintro ⟨_, _, _, hlt⟩
          exact absurd (hlt e he) (by omega)
      · rename_i hexp
        constructor
        · intro h
          refine ⟨hk, hp, (Except.ok.inj h).symm, ?_⟩
          intro e' he'
          rw [he] at he'
          cases he'
          omega
        · rintro ⟨_, _, hpp, _⟩
          rw [hpp]
    · rename_i he
      constructor
      · intro h
        refine ⟨hk, hp, (Except.ok.inj h).symm, ?_⟩
        intro e' he'
        rw [he] at he'
        cases he'
      · rintro ⟨_, _, hpp, _⟩
        rw [hpp]

/-- Characterization of `validateJWT`: it yields a subject exactly when
the signature verifies, the token is unexpired, and the subject claim is
a non-empty string (the `!decoded.sub` falsy guard also rejects `""`). -/
theorem validateJWT_ok_iff (tok : Token) (secret : String) (nowSec : Int)
    (s : String) :
    validateJWT tok secret nowSec = .ok s ↔
      tok.sigKey = secret ∧ tok.sigPayload = tok.payload
        ∧ (∀ e, tok.payload.exp = some e → nowSec < e)
        ∧ tok.payload.sub = some (.jstr s) ∧ s ≠ "" := by
  unfold validateJWT
  constructor
  · intro h
    split at h
    · cases h
    · rename_i p hjv
      rcases (jwtVerify_ok_iff tok secret nowSec p).mp hjv with
        ⟨hk, hsp, hpp, hexp⟩
      subst hpp
      split at h
      · cases h
      · rename_i hcond
        push_neg at hcond
        rcases hcond with ⟨htr, _⟩
        split at h
        · rename_i s' hsub
          cases h
          refine ⟨hk, hsp, hexp, hsub, ?_⟩
          intro hse
          subst hse
          rw [hsub] at htr
          simp [truthy] at htr
        · cases h
  · rintro ⟨hk, hsp, hexp, hsub, hs⟩
    have hjv : jwtVerify tok secret nowSec = .ok tok.payload :=
      (jwtVerify_ok_iff tok secret nowSec tok.payload).mpr
        ⟨hk, hsp, rfl, hexp⟩
    split
    · rename_i hjv'
      rw [hjv] at hjv'
      cases hjv'
    · rename_i p hjv'
      rw [hjv] at hjv'
      cases hjv'
      have htr : truthy tok.payload.sub = true := by
        rw [hsub]; simp [truthy, hs]
      have hstr : isStringVal tok.payload.sub = true := by
        rw [hsub]; simp [isStringVal]
      rw [if_neg (by simp [htr, hstr])]
      rw [hsub]

/-- `validateJWT` either succeeds or fails with the single collapsed
Unauthorized message (the `catch` rewrites every failure). -/
theorem validateJWT_ok_or_error (tok : Token) (secret : String)
    (nowSec : Int) :
    (∃ s, validateJWT tok secret nowSec = .ok s)
      ∨ validateJWT tok secret nowSec
          = .error (.unauthorized "Invalid or expired token") := by
  unfold validateJWT
  split
  · right; rfl
  · split
    · right; rfl
    · split
      · rename_i s _
        left; exact ⟨s, rfl⟩
      · right; rfl

/-- The uncaught second variant never produces a categorized Unauthorized
failure: each of its failures is an uncategorized plain `Error`. -/
theorem validateJWT2_never_unauthorized (tok : Token) (secret : String)
    (nowSec : Int) :
    ∀ m, validateJWT2 tok secret nowSec ≠ Except.error (.unauthorized m) := by
  intro m h
  unfold validateJWT2 at h
  split at h
  · cases h
  · split at h
    · cases h
    · split at h
      · cases h
      · cases h

/-- Login with an unregistered email fails with the generic Unauthorized
message and leaves the store unchanged. -/
theorem handlerLogin_userNotFound (db : DB) (em pw : String)
    (pwOk : String → String → Bool) (ft : String) (n : Int) (s : String)
    (hem : em ≠ "") (hpw : pw ≠ "") (h : getUserByEmail db em = none) :
    handlerLogin db (some (.jstr em)) (some (.jstr pw)) pwOk ft n s
      = (.error (.unauthorized "Incorrect email or password"), db) := by
  simp [handlerLogin, truthy, isStringVal, hem, hpw, h]

/-- Login with a registered email but failing password check fails with
the same generic Unauthorized message and leaves the store unchanged. -/
theorem handlerLogin_wrongPassword (db : DB) (em pw : String) (u : User)
    (pwOk : String → String → Bool) (ft : String) (n : Int) (s : String)
    (hem : em ≠ "") (hpw : pw ≠ "") (h : getUserByEmail db em = some u)
    (hwrong : pwOk pw u.hashedPassword = false) :
    handlerLogin db (some (.jstr em)) (some (.jstr pw)) pwOk ft n s
      = (.error (.unauthorized "Incorrect email or password"), db) := by
  simp [handlerLogin, truthy, isStringVal, hem, hpw, h, hwrong]

/-- Successful login issues a one-hour access token and persists a
60-day unrevoked refresh token. -/
theorem handlerLogin_success (db : DB) (em pw : String) (u : User)
    (pwOk : String → String → Bool) (ft : String) (n : Int) (s : String)
    (hem : em ≠ "") (hpw : pw ≠ "") (h : getUserByEmail db em = some u)
    (hok : pwOk pw u.hashedPassword = true) :
    handlerLogin db (some (.jstr em)) (some (.jstr pw)) pwOk ft n s
      = (.ok { user := u, token := makeJWT u.id 3600 s (Int.fdiv n 1000),
               refreshToken := ft },
         createRefreshToken db
           { token := ft, userId := u.id, expiresAt := n + SIXTY_DAYS_IN_MS,
             revokedAt := none, createdAt := n, updatedAt := n }) := by
  simp [handlerLogin, truthy, isStringVal, hem, hpw, h, hok]

/-- Successful negotiated login with a numeric `expiresInSeconds` issues
a token whose lifetime is clamped to `min e 3600`. -/
theorem handlerLoginNegotiated_success_num (db : DB) (em pw : String)
    (u : User) (pwOk : String → String → Bool) (e nowMs : Int) (s : String)
    (hem : em ≠ "") (hpw : pw ≠ "") (h : getUserByEmail db em = some u)
    (hok : pwOk pw u.hashedPassword = true) :
    handlerLoginNegotiated db (some (.jstr em)) (some (.jstr pw)) pwOk
        (some (.jnum e)) nowMs s
      = (.ok (u, makeJWT u.id (min e 3600) s (Int.fdiv nowMs 1000)), db) := by
  simp [handlerLoginNegotiated, truthy, isStringVal, hem, hpw, h, hok]

/-- Successful negotiated login without `expiresInSeconds` issues a token
with the default one-hour lifetime. -/
theorem handlerLoginNegotiated_success_none (db : DB) (em pw : String)
    (u : User) (pwOk : String → String → Bool) (nowMs : Int) (s : String)
    (hem : em ≠ "") (hpw : pw ≠ "") (h : getUserByEmail db em = some u)
    (hok : pwOk pw u.hashedPassword = true) :
    handlerLoginNegotiated db (some (.jstr em)) (some (.jstr pw)) pwOk
        none nowMs s
      = (.ok (u, makeJWT u.id 3600 s (Int.fdiv nowMs 1000)), db) := by
  simp [handlerLoginNegotiated, truthy, isStringVal, hem, hpw, h, hok]

/-- After deleting a chirp by id, looking that id up finds nothing. -/
theorem getChirpById_deleteChirp (db : DB) (cid : String) :
    getChirpById (deleteChirp db cid) cid = none := by
  unfold getChirpById deleteChirp
  rw [List.find?_eq_none]
  intro x hx
  simp only [List.mem_filter] at hx
  simpa using hx.2

end Chirpy

namespace Chirpy

/-- C1: for every subject identifier, positive lifetime, and secret,
verifying an access token immediately after issuing it with that same
secret returns the original subject identifier — amended to require the
subject to be non-empty, since the falsy subject guard rejects `""`. -/
theorem c1_roundtrip_nonempty_subject (s secret : String)
    (lifetime nowSec : Int) (hs : s ≠ "") (hl : 0 < lifetime) :
    validateJWT (makeJWT s lifetime secret nowSec) secret nowSec
      = Except.ok s := by
  apply (validateJWT_ok_iff _ _ _ _).mpr
  refine ⟨rfl, rfl, ?_, rfl, hs⟩
  intro e he
  simp [makeJWT] at he
  omega

/-- C1 witness: the round trip at subject `"u42"`, lifetime 3600,
secret `"k"`, issuance instant 100. -/
theorem c1_roundtrip_witness :
    validateJWT (makeJWT "u42" 3600 "k" 100) "k" 100 = Except.ok "u42" :=
  c1_roundtrip_nonempty_subject "u42" "k" 3600 100 (by decide) (by norm_num)

/-- C1 counterexample: with subject `""` and positive lifetime 10 the
round trip does not return the original subject — the `!decoded.sub`
falsy check throws instead. -/
theorem c1_counterexample :
    (0 : Int) < 10 ∧
      validateJWT (makeJWT "" 10 "k" 0) "k" 0
        = Except.error (ApiError.unauthorized "Invalid or expired token") ∧
      validateJWT (makeJWT "" 10 "k" 0) "k" 0 ≠ Except.ok "" := by
  refine ⟨by norm_num, rfl, ?_⟩
  intro h
  have h2 : validateJWT (makeJWT "" 10 "k" 0) "k" 0
      = Except.error (ApiError.unauthorized "Invalid or expired token") := rfl
  rw [h2] at h
  cases h

/-- C2: the error-typed `validateJWT` returns the subject exactly when
the signature matches the secret over an unaltered payload, the expiry
(when present) is strictly in the future, and the subject claim is a
non-empty string; in every other case it fails with the single
Unauthorized message.  The uncaught second variant never fails with an
Unauthorized condition (its failures are uncategorized plain errors). -/
theorem c2_verify_characterization (tok : Token) (secret : String)
    (nowSec : Int) :
    (∀ s : String,
        validateJWT tok secret nowSec = Except.ok s ↔
          tok.sigKey = secret ∧ tok.sigPayload = tok.payload
            ∧ (∀ e, tok.payload.exp = some e → nowSec < e)
            ∧ tok.payload.sub = some (.jstr s) ∧ s ≠ "")
    ∧ ((¬ ∃ s : String, tok.sigKey = secret ∧ tok.sigPayload = tok.payload
            ∧ (∀ e, tok.payload.exp = some e → nowSec < e)
            ∧ tok.payload.sub = some (.jstr s) ∧ s ≠ "") →
        validateJWT tok secret nowSec
          = Except.error (.unauthorized "Invalid or expired token"))
    ∧ (∀ m, validateJWT2 tok secret nowSec
          ≠ Except.error (.unauthorized m)) := by
  refine ⟨validateJWT_ok_iff tok secret nowSec, ?_,
    validateJWT2_never_unauthorized tok secret nowSec⟩
  intro hno
  rcases validateJWT_ok_or_error tok secret nowSec with ⟨s, hs⟩ | he
  · exact absurd ⟨s, (validateJWT_ok_iff tok secret nowSec s).mp hs⟩ hno
  · exact he

/-- C2 witness: a well-signed unexpired token with subject `"u7"`
verifies to `"u7"`. -/
theorem c2_verify_witness :
    validateJWT
      { payload := { iss := some (.jstr "chirpy"), sub := some (.jstr "u7"),
                     iat := some 0, exp := some 100 },
        sigKey := "k",
        sigPayload := { iss := some (.jstr "chirpy"), sub := some (.jstr "u7"),
                        iat := some 0, exp := some 100 } } "k" 0
      = Except.ok "u7" := by
  apply ((c2_verify_characterization _ "k" 0).1 "u7").mpr
  refine ⟨rfl, rfl, ?_, rfl, by decide⟩
  intro e he
  injection he with h
  omega

/-- C2 counterexample: a token whose signature matches the secret, whose
expiry is in the future, and whose subject is present and a string
(namely `""`) is nevertheless rejected, against the claim's "in all
other cases it returns the subject"; and in the second variant an
expired token fails with an uncategorized error mapped to 500, not with
an Unauthorized 401. -/
theorem c2_counterexample :
    let p : JwtPayload :=
      { iss := some (.jstr "chirpy"), sub := some (.jstr ""),
        iat := some 0, exp := some 100 }
    let tok : Token := { payload := p, sigKey := "k", sigPayload := p }
    tok.sigKey = "k" ∧ tok.sigPayload = tok.payload
      ∧ isStringVal tok.payload.sub = true
      ∧ (0 : Int) < 100
      ∧ validateJWT tok "k" 0
          = Except.error (.unauthorized "Invalid or expired token")
      ∧ validateJWT2 (makeJWT "u9" 10 "k" 0) "k" 50
          = Except.error (.internal "jwt expired")
      ∧ errStatus (.internal "jwt expired") = 500 :=
  ⟨rfl, rfl, rfl, by norm_num, rfl, rfl, rfl⟩

/-- C3: a stored refresh token (unique for its token value, with its
owning user present) resolves to the owning user exactly when
`revoked_at` is absent and `expires_at` is strictly in the future;
otherwise resolution is absent and the refresh endpoint fails with
Unauthorized "Invalid or expired refresh token". -/
theorem c3_refresh_token_validity (db : DB) (r : RefreshTokenRow)
    (nowMs : Int) (secret : String)
    (hmem : r ∈ db.refreshTokens)
    (huniq : ∀ r' ∈ db.refreshTokens, r'.token = r.token → r' = r)
    (hint : ∃ u ∈ db.users, u.id = r.userId) :
    ((r.revokedAt = none ∧ nowMs < r.expiresAt) →
        ∃ u, getUserFromRefreshToken db r.token nowMs = some u
          ∧ u.id = r.userId)
    ∧ (¬ (r.revokedAt = none ∧ nowMs < r.expiresAt) →
        getUserFromRefreshToken db r.token nowMs = none
          ∧ (handlerRefresh db r.token nowMs secret).1
              = Except.error
                  (.unauthorized "Invalid or expired refresh token")) := by
  constructor
  · rintro ⟨hrev, hexp⟩
    have hsome : (db.refreshTokens.find? (fun r' => r'.token == r.token
        && r'.revokedAt == none && decide (nowMs < r'.expiresAt))).isSome := by
      rw [List.find?_isSome]
      exact ⟨r, hmem, by simp [hrev, hexp]⟩
    obtain ⟨r', hr'⟩ := Option.isSome_iff_exists.mp hsome
    have hr'mem := List.mem_of_find?_eq_some hr'
    have hr'pred := List.find?_some hr'
    simp only [Bool.and_eq_true, beq_iff_eq, decide_eq_true_eq] at hr'pred
    have hrr : r' = r := huniq r' hr'mem hr'pred.1.1
    subst hrr
    obtain ⟨u, humem, huid⟩ := hint
    have husome : (db.users.find? (fun v => v.id == r'.userId)).isSome := by
      rw [List.find?_isSome]
      exact ⟨u, humem, by simp [huid]⟩
    obtain ⟨u', hu'⟩ := Option.isSome_iff_exists.mp husome
    have hu'pred := List.find?_some hu'
    simp only [beq_iff_eq] at hu'pred
    refine ⟨u', ?_, hu'pred⟩
    unfold getUserFromRefreshToken
    rw [hr']
    exact hu'
  · intro hinvalid
    have hnone : db.refreshTokens.find? (fun r' => r'.token == r.token
        && r'.revokedAt == none && decide (nowMs < r'.expiresAt)) = none := by
      rw [List.find?_eq_none]
      intro x hx hpx
      simp only [Bool.and_eq_true, beq_iff_eq, decide_eq_true_eq] at hpx
      have hxr : x = r := huniq x hx hpx.1.1
      subst hxr
      exact hinvalid ⟨hpx.1.2, hpx.2⟩
    have hres : getUserFromRefreshToken db r.token nowMs = none := by
      unfold getUserFromRefreshToken
      rw [hnone]
    refine ⟨hres, ?_⟩
    unfold handlerRefresh
    rw [hres]

/-- C3 witness: in `dbRefresh` at time 50 the token `"rt"` (unrevoked,
expiring at 100) resolves to its owning user `"u1"`. -/
theorem c3_refresh_witness :
    ∃ u, getUserFromRefreshToken dbRefresh "rt" 50 = some u
      ∧ u.id = "u1" :=
  (c3_refresh_token_validity dbRefresh rowW 50 "k"
    (by simp [dbRefresh])
    (by intro r' hr' _; simpa [dbRefresh] using hr')
    ⟨userW, by simp [dbRefresh], rfl⟩).1 ⟨rfl, by decide⟩

end Chirpy

namespace Chirpy

/-- C4: revoke always responds 204 and never errors; an absent token is a
no-op leaving the store unchanged — but a matching row is stamped with
the current time whether or not it was already revoked (so "already
revoked is a no-op" is amended to "already revoked is re-stamped"); rows
with other tokens and the other tables are untouched. -/
theorem c4_revoke_behavior (db : DB) (t : String) (nowMs : Int) :
    (handlerRevoke db t nowMs).1 = Except.ok 204
    ∧ ((∀ row ∈ db.refreshTokens, row.token ≠ t) →
        (handlerRevoke db t nowMs).2 = db)
    ∧ (∀ row ∈ db.refreshTokens, row.token = t →
        { row with revokedAt := some nowMs, updatedAt := nowMs }
          ∈ (handlerRevoke db t nowMs).2.refreshTokens)
    ∧ (∀ row ∈ db.refreshTokens, row.token ≠ t →
        row ∈ (handlerRevoke db t nowMs).2.refreshTokens)
    ∧ (handlerRevoke db t nowMs).2.users = db.users
    ∧ (handlerRevoke db t nowMs).2.chirps = db.chirps := by
  obtain ⟨us, rts, cs⟩ := db
  refine ⟨rfl, ?_, ?_, ?_, rfl, rfl⟩
  · intro hnone
    simp only [handlerRevoke, revokeRefreshToken, DB.mk.injEq, true_and,
      and_true]
    conv_rhs => rw [← List.map_id rts]
    apply List.map_congr_left
    intro a ha
    have hne : ¬ (a.token == t) = true := by
      simpa using hnone a ha
    simp [hne]
  · intro row hrow hrowt
    simp only [handlerRevoke, revokeRefreshToken]
    apply List.mem_map.mpr
    exact ⟨row, hrow, by simp [hrowt]⟩
  · intro row hrow hrowt
    simp only [handlerRevoke, revokeRefreshToken]
    apply List.mem_map.mpr
    exact ⟨row, hrow, by simp [hrowt]⟩

/-- C4 witness: revoking the unrevoked stored token `"rt"` at time 10
responds 204 and leaves the row stamped `revoked_at = 10`. -/
theorem c4_revoke_witness :
    (handlerRevoke dbRefresh "rt" 10).1 = Except.ok 204
    ∧ ({ token := "rt", userId := "u1", expiresAt := 100,
         revokedAt := some 10, createdAt := 0,
         updatedAt := 10 } : RefreshTokenRow)
        ∈ (handlerRevoke dbRefresh "rt" 10).2.refreshTokens :=
  ⟨(c4_revoke_behavior dbRefresh "rt" 10).1,
   (c4_revoke_behavior dbRefresh "rt" 10).2.2.1 rowW
     (by simp [dbRefresh]) rfl⟩

/-- C4 counterexample: revoking a token that is already revoked
(`revoked_at = 5`) at time 10 still responds 204 but changes the stored
state (the row is re-stamped), refuting "no-op leaving stored state
unchanged". -/
theorem c4_counterexample :
    let row : RefreshTokenRow :=
      { token := "rt", userId := "u1", expiresAt := 100,
        revokedAt := some 5, createdAt := 0, updatedAt := 5 }
    let db : DB := { users := [], refreshTokens := [row], chirps := [] }
    row.revokedAt ≠ none
      ∧ (handlerRevoke db "rt" 10).1 = Except.ok 204
      ∧ (handlerRevoke db "rt" 10).2 ≠ db :=
  ⟨by decide, rfl, by decide⟩

/-- C5: a login attempt with an unregistered email and a login attempt
with a registered email but a failing password check produce identical
results — the same Unauthorized error with the same generic message, so
the two failure causes are indistinguishable to the caller. -/
theorem c5_login_failures_indistinguishable (db₁ db₂ : DB)
    (em₁ pw₁ em₂ pw₂ : String) (u : User)
    (pwOk₁ pwOk₂ : String → String → Bool) (ft₁ ft₂ : String)
    (n₁ n₂ : Int) (s₁ s₂ : String)
    (hem₁ : em₁ ≠ "") (hpw₁ : pw₁ ≠ "")
    (hem₂ : em₂ ≠ "") (hpw₂ : pw₂ ≠ "")
    (h₁ : getUserByEmail db₁ em₁ = none)
    (h₂ : getUserByEmail db₂ em₂ = some u)
    (hwrong : pwOk₂ pw₂ u.hashedPassword = false) :
    (handlerLogin db₁ (some (.jstr em₁)) (some (.jstr pw₁)) pwOk₁ ft₁ n₁ s₁).1
        = Except.error (.unauthorized "Incorrect email or password")
    ∧ (handlerLogin db₂ (some (.jstr em₂)) (some (.jstr pw₂)) pwOk₂ ft₂ n₂ s₂).1
        = Except.error (.unauthorized "Incorrect email or password")
    ∧ (handlerLogin db₁ (some (.jstr em₁)) (some (.jstr pw₁)) pwOk₁ ft₁ n₁ s₁).1
        = (handlerLogin db₂ (some (.jstr em₂)) (some (.jstr pw₂)) pwOk₂ ft₂ n₂ s₂).1
    ∧ errStatus (.unauthorized "Incorrect email or password") = 401 := by
  have e₁ := handlerLogin_userNotFound db₁ em₁ pw₁ pwOk₁ ft₁ n₁ s₁ hem₁ hpw₁ h₁
  have e₂ := handlerLogin_wrongPassword db₂ em₂ pw₂ u pwOk₂ ft₂ n₂ s₂ hem₂
    hpw₂ h₂ hwrong
  rw [e₁, e₂]
  exact ⟨rfl, rfl, rfl, rfl⟩

/-- C5 witness: an unknown-email attempt against an empty store and a
wrong-password attempt against `userW` return identical results. -/
theorem c5_witness :
    (handlerLogin dbEmpty (some (.jstr "b@x.com")) (some (.jstr "zzz"))
        pwEq "t1" 0 "k").1
      = (handlerLogin dbUser (some (.jstr "a@x.com")) (some (.jstr "wrong"))
          pwEq "t2" 0 "k").1 :=
  (c5_login_failures_indistinguishable dbEmpty dbUser
    "b@x.com" "zzz" "a@x.com" "wrong" userW pwEq pwEq "t1" "t2" 0 0 "k" "k"
    (by decide) (by decide) (by decide) (by decide)
    rfl rfl (by decide)).2.2.1

/-- C6: every token `makeJWT` issues has expires-at = issued-at plus the
requested lifetime; in the negotiating variant, a successful login with
numeric `expiresInSeconds = e` issues a token with lifetime
`min e 3600 ≤ 3600`, an absent `expiresInSeconds` yields exactly 3600,
and the fixed variant's login always issues a 3600-second token. -/
theorem c6_lifetime_clamp (db : DB) (em pw : String) (u : User)
    (pwOk : String → String → Bool) (nowMs : Int) (secret : String)
    (hem : em ≠ "") (hpw : pw ≠ "")
    (hu : getUserByEmail db em = some u)
    (hok : pwOk pw u.hashedPassword = true) :
    (∀ (uid sec : String) (lt t : Int),
        (makeJWT uid lt sec t).payload.iat = some t
          ∧ (makeJWT uid lt sec t).payload.exp = some (t + lt))
    ∧ (∀ e : Int,
        (handlerLoginNegotiated db (some (.jstr em)) (some (.jstr pw)) pwOk
            (some (.jnum e)) nowMs secret).1
          = Except.ok (u, makeJWT u.id (min e 3600) secret
              (Int.fdiv nowMs 1000))
        ∧ min e 3600 ≤ 3600)
    ∧ (handlerLoginNegotiated db (some (.jstr em)) (some (.jstr pw)) pwOk
          none nowMs secret).1
        = Except.ok (u, makeJWT u.id 3600 secret (Int.fdiv nowMs 1000))
    ∧ (handlerLogin db (some (.jstr em)) (some (.jstr pw)) pwOk "ft" nowMs
          secret).1
        = Except.ok { user := u,
                      token := makeJWT u.id 3600 secret (Int.fdiv nowMs 1000),
                      refreshToken := "ft" } := by
  refine ⟨fun uid sec lt t => ⟨rfl, rfl⟩, fun e => ⟨?_, min_le_right _ _⟩,
    ?_, ?_⟩
  · rw [handlerLoginNegotiated_success_num db em pw u pwOk e nowMs secret
      hem hpw hu hok]
  · rw [handlerLoginNegotiated_success_none db em pw u pwOk nowMs secret
      hem hpw hu hok]
  · rw [handlerLogin_success db em pw u pwOk "ft" nowMs secret hem hpw hu hok]

/-- C6 witness: a successful negotiated login requesting 120 seconds
issues a token with the clamped lifetime `min 120 3600`. -/
theorem c6_witness :
    (handlerLoginNegotiated dbUser (some (.jstr "a@x.com"))
        (some (.jstr "pw1")) pwEq (some (.jnum 120)) 0 "k").1
      = Except.ok (userW, makeJWT "u1" (min 120 3600) "k" (Int.fdiv 0 1000))
    ∧ min (120 : Int) 3600 ≤ 3600 :=
  (c6_lifetime_clamp dbUser "a@x.com" "pw1" userW pwEq 0 "k"
    (by decide) (by decide) rfl rfl).2.1 120

end Chirpy

namespace Chirpy

/-- C7: when a refresh token resolves to a user, the refresh handler
returns a fresh one-hour access token for that user and the store is
entirely unchanged — no rotation, no re-issue, no field mutation — so
the same refresh token still resolves to the same user afterwards. -/
theorem c7_refresh_frame (db : DB) (t : String) (nowMs : Int)
    (secret : String) (u : User)
    (h : getUserFromRefreshToken db t nowMs = some u) :
    handlerRefresh db t nowMs secret
        = (Except.ok (makeJWT u.id 3600 secret (Int.fdiv nowMs 1000)), db)
    ∧ (handlerRefresh db t nowMs secret).2 = db
    ∧ getUserFromRefreshToken (handlerRefresh db t nowMs secret).2 t nowMs
        = some u := by
  have h1 : handlerRefresh db t nowMs secret
      = (Except.ok (makeJWT u.id 3600 secret (Int.fdiv nowMs 1000)), db) := by
    unfold handlerRefresh
    rw [h]
  exact ⟨h1, by rw [h1], by rw [h1]; exact h⟩

/-- C7 witness: refreshing with the stored token `"rt"` at time 50
leaves `dbRefresh` unchanged. -/
theorem c7_witness :
    (handlerRefresh dbRefresh "rt" 50 "k").2 = dbRefresh :=
  (c7_refresh_frame dbRefresh "rt" 50 "k" userW rfl).2.1

/-- C8: with a validly authenticated identity `uid`, deleting a chirp
fails NotFound (404) when no chirp has the given id; fails Forbidden
(403) without deleting when the chirp's author differs from `uid`; and
deletes the chirp with a 204 response when the author matches. -/
theorem c8_delete_chirp_authorization (db : DB) (tok : Token)
    (secret : String) (nowSec : Int) (chirpId uid : String)
    (hauth : validateJWT tok secret nowSec = Except.ok uid) :
    (getChirpById db chirpId = none →
        handlerDeleteChirp db tok secret nowSec chirpId
          = (Except.error (.notFound "Chirp not found"), db)
        ∧ errStatus (.notFound "Chirp not found") = 404)
    ∧ (∀ c, getChirpById db chirpId = some c → c.userId ≠ uid →
        handlerDeleteChirp db tok secret nowSec chirpId
          = (Except.error
              (.forbidden "You are not authorized to delete this chirp"), db)
        ∧ getChirpById (handlerDeleteChirp db tok secret nowSec chirpId).2
            chirpId = some c
        ∧ errStatus (.forbidden "You are not authorized to delete this chirp")
            = 403)
    ∧ (∀ c, getChirpById db chirpId = some c → c.userId = uid →
        handlerDeleteChirp db tok secret nowSec chirpId
          = (Except.ok 204, deleteChirp db chirpId)
        ∧ getChirpById (handlerDeleteChirp db tok secret nowSec chirpId).2
            chirpId = none) := by
  refine ⟨?_, ?_, ?_⟩
  · intro hnone
    have : handlerDeleteChirp db tok secret nowSec chirpId
        = (Except.error (.notFound "Chirp not found"), db) := by
      unfold handlerDeleteChirp
      rw [hauth, hnone]
    exact ⟨this, rfl⟩
  · intro c hc hne
    have : handlerDeleteChirp db tok secret nowSec chirpId
        = (Except.error
            (.forbidden "You are not authorized to delete this chirp"), db) := by
      unfold handlerDeleteChirp
      rw [hauth, hc]
      simp [hne]
    exact ⟨this, by rw [this]; exact hc, rfl⟩
  · intro c hc heq
    have : handlerDeleteChirp db tok secret nowSec chirpId
        = (Except.ok 204, deleteChirp db chirpId) := by
      unfold handlerDeleteChirp
      rw [hauth, hc]
      simp [heq]
    exact ⟨this, by rw [this]; exact getChirpById_deleteChirp db chirpId⟩

/-- C8 witness: the author `"u1"` deletes its own chirp `"c1"` — 204 and
the chirp is gone. -/
theorem c8_witness :
    handlerDeleteChirp dbChirp (makeJWT "u1" 3600 "k" 0) "k" 0 "c1"
      = (Except.ok 204, deleteChirp dbChirp "c1")
    ∧ getChirpById
        (handlerDeleteChirp dbChirp (makeJWT "u1" 3600 "k" 0) "k" 0 "c1").2
        "c1" = none :=
  (c8_delete_chirp_authorization dbChirp (makeJWT "u1" 3600 "k" 0) "k" 0
    "c1" "u1" rfl).2.2 chirpW rfl rfl

/-- C9: a payment-webhook request whose ApiKey differs from the
configured key fails Unauthorized (401) regardless of the payload and
leaves the store (hence every user's tier flag) unchanged; with the
correct key and any event other than `"user.upgraded"` the response is
204 and the store is unchanged. -/
theorem c9_webhook_gate (db : DB) (apiKey polkaKey : String)
    (body : WebhookBody) (nowMs : Int) :
    (apiKey ≠ polkaKey →
        handlerPolkaWebhook db apiKey polkaKey body nowMs
          = (Except.error (.unauthorized "Invalid API key"), db)
        ∧ errStatus (.unauthorized "Invalid API key") = 401)
    ∧ (apiKey = polkaKey → body.event ≠ some (.jstr "user.upgraded") →
        handlerPolkaWebhook db apiKey polkaKey body nowMs
          = (Except.ok 204, db)) := by
  constructor
  · intro hne
    refine ⟨?_, rfl⟩
    unfold handlerPolkaWebhook
    rw [if_pos hne]
  · intro heq hev
    unfold handlerPolkaWebhook
    rw [if_neg (by simp [heq]), if_pos hev]

/-- C9 witness: a wrong key with a well-formed upgrade payload yields
401 and no state change. -/
theorem c9_witness :
    handlerPolkaWebhook dbEmpty "bad-key" "real-key"
        { event := some (.jstr "user.upgraded"),
          dataUserId := some (.jstr "u1") } 0
      = (Except.error (.unauthorized "Invalid API key"), dbEmpty)
    ∧ errStatus (.unauthorized "Invalid API key") = 401 :=
  (c9_webhook_gate dbEmpty "bad-key" "real-key"
    { event := some (.jstr "user.upgraded"),
      dataUserId := some (.jstr "u1") } 0).1 (by decide)

/-- C10: in the negotiating variant, a caller-supplied
`expiresInSeconds = e ≤ 0` is adopted unchanged by the clamp
(`min e 3600 = e`), the issued token's expires-at is at or before its
issued-at, and verification fails at every time at or after issuance. -/
theorem c10_nonpositive_lifetime (db : DB) (em pw : String) (u : User)
    (pwOk : String → String → Bool) (nowMs e : Int) (secret : String)
    (hem : em ≠ "") (hpw : pw ≠ "")
    (hu : getUserByEmail db em = some u)
    (hok : pwOk pw u.hashedPassword = true)
    (he : e ≤ 0) :
    min e 3600 = e
    ∧ (handlerLoginNegotiated db (some (.jstr em)) (some (.jstr pw)) pwOk
          (some (.jnum e)) nowMs secret).1
        = Except.ok (u, makeJWT u.id e secret (Int.fdiv nowMs 1000))
    ∧ (makeJWT u.id e secret (Int.fdiv nowMs 1000)).payload.exp
        = some (Int.fdiv nowMs 1000 + e)
    ∧ Int.fdiv nowMs 1000 + e ≤ Int.fdiv nowMs 1000
    ∧ (∀ t : Int, Int.fdiv nowMs 1000 ≤ t →
        validateJWT (makeJWT u.id e secret (Int.fdiv nowMs 1000)) secret t
          = Except.error (.unauthorized "Invalid or expired token")) := by
  have hmin : min e 3600 = e := min_eq_left (by omega)
  refine ⟨hmin, ?_, rfl, by omega, ?_⟩
  · rw [handlerLoginNegotiated_success_num db em pw u pwOk e nowMs secret
      hem hpw hu hok, hmin]
  · intro t ht
    rcases validateJWT_ok_or_error
        (makeJWT u.id e secret (Int.fdiv nowMs 1000)) secret t with
      ⟨s, hs⟩ | herr
    · rcases (validateJWT_ok_iff _ _ _ _).mp hs with ⟨_, _, hexp, _, _⟩
      have := hexp (Int.fdiv nowMs 1000 + e) rfl
      omega
    · exact herr

/-- C10 witness: a login requesting lifetime -5 yields a token already
expired at verification time 7. -/
theorem c10_witness :
    validateJWT (makeJWT "u1" (-5) "k" (Int.fdiv 0 1000)) "k" 7
      = Except.error (.unauthorized "Invalid or expired token") :=
  (c10_nonpositive_lifetime dbUser "a@x.com" "pw1" userW pwEq 0 (-5) "k"
    (by decide) (by decide) rfl rfl (by norm_num)).2.2.2.2 7 (by norm_num)

end Chirpy
